import Mathlib

/-
Verification development for the simple Flask + Celery demo service
(src/app.py).  The two Celery task bodies and the five HTTP handlers are
embedded shallowly as pure Lean functions; the external Celery
broker/result backend is modelled explicitly as a state record, since its
code is not part of this repository.
-/

namespace SimpleFlask

/-! Job executors (src/app.py, lines 46-68).  A task body is modelled as a
pure function returning the diagnostic lines it prints, the total number
of simulated seconds it sleeps, and its return value. -/

structure ExecResult where
  printed : List String
  sleepTime : Nat
  ret : String
deriving DecidableEq, Repr

/-- Embedding of send_email_async (src/app.py lines 46-55): prints three
diagnostic lines, sleeps 3 seconds, and returns the confirmation string. -/
def send_email_async (toAddr subject message : String) : ExecResult :=
  { printed := ["📧 Sending email to: " ++ toAddr,
                "📋 Subject: " ++ subject,
                "📝 Message: " ++ message],
    sleepTime := 3,
    ret := "Email sent to " ++ toAddr ++ " successfully!" }

/-- Progress lines printed by the loop of long_running_task_async
(src/app.py lines 64-66): one line per iteration of range(duration),
hence duration.toNat lines, matching Python where range of a
non-positive integer is empty. -/
def long_running_progress (task_name : String) (duration : Int) : List String :=
  (List.range duration.toNat).map fun i =>
    "⏳ Task " ++ task_name ++ ": " ++ toString (i + 1) ++ "/" ++ toString duration

/-- Embedding of long_running_task_async (src/app.py lines 58-68): two
startup lines, the per-unit progress lines (each iteration also sleeps
one second, so total sleep is the iteration count), a completion line,
and the confirmation return string. -/
def long_running_task_async (task_name : String) (duration : Int) : ExecResult :=
  { printed := ["🚀 Starting task: " ++ task_name,
                "⏰ Duration: " ++ toString duration ++ " seconds"]
               ++ long_running_progress task_name duration
               ++ ["✅ Task " ++ task_name ++ " completed!"],
    sleepTime := duration.toNat,
    ret := "Task " ++ task_name ++ " completed in " ++ toString duration ++ " seconds" }

/-! Broker model.  The Celery broker and result backend are external to
this repository (src/app.py lines 15-19 only configure them), so they are
modelled from the spec. -/

/-- Celery task states as reported by AsyncResult.status. -/
inductive CeleryStatus where
  | PENDING
  | STARTED
  | SUCCESS
  | FAILURE
deriving DecidableEq, Repr

/-- String rendering of a Celery state, as the status field of
task-status responses. -/
def CeleryStatus.text : CeleryStatus → String
  | .PENDING => "PENDING"
  | .STARTED => "STARTED"
  | .SUCCESS => "SUCCESS"
  | .FAILURE => "FAILURE"

/-- Terminal states, after which a job record never changes again. -/
def CeleryStatus.isTerminal : CeleryStatus → Bool
  | .SUCCESS => true
  | .FAILURE => true
  | _ => false

/-- A job invocation: which task body is enqueued, with which arguments
(the two delay calls at src/app.py lines 83-87 and 99-102). -/
inductive JobCall where
  | sendEmail (toAddr subject message : String)
  | longRunningTask (task_name : String) (duration : Int)
deriving DecidableEq, Repr

/-- Dispatch of a job invocation to its task body. -/
def runJob : JobCall → ExecResult
  | .sendEmail toAddr subject message => send_email_async toAddr subject message
  | .longRunningTask task_name duration => long_running_task_async task_name duration

/-- Modelled from the spec: the record the result backend keeps per job
(job-type and arguments, current status, result payload present only once
the status is terminal). -/
structure JobRecord where
  call : JobCall
  status : CeleryStatus
  result : Option String
deriving DecidableEq, Repr

/-- Modelled from the spec: the external broker plus result backend,
holding a fresh-identifier counter and the association of issued job
identifiers to job records. -/
structure BrokerState where
  nextId : Nat
  jobs : List (String × JobRecord)
deriving DecidableEq, Repr

/-- Broker state before any submission. -/
def initialBroker : BrokerState := { nextId := 0, jobs := [] }

/-- Modelled from the spec: the identifier generator.  Celery generates a
fresh token per submission; the model derives it from a counter, which
keeps identifiers non-empty and pairwise distinct. -/
def freshId (n : Nat) : String := "task-" ++ Nat.repr n

/-- Modelled from the spec: delay enqueues the job and returns a freshly
generated identifier immediately; the new record starts PENDING with no
result, since the worker has not run it yet. -/
def BrokerState.submit (s : BrokerState) (c : JobCall) : String × BrokerState :=
  (freshId s.nextId,
   { nextId := s.nextId + 1,
     jobs := (freshId s.nextId,
              { call := c, status := .PENDING, result := none }) :: s.jobs })

/-- Modelled from the spec: the worker picks up a pending job, moving it
to STARTED (no result yet). -/
def BrokerState.startJob (s : BrokerState) (id : String) : BrokerState :=
  { s with jobs := s.jobs.map fun kr =>
      if kr.1 = id ∧ kr.2.status = .PENDING then
        (kr.1, { kr.2 with status := .STARTED })
      else kr }

/-- Modelled from the spec: the worker finishes a non-terminal job, moving
it to SUCCESS and storing the return value of the task body. -/
def BrokerState.completeJob (s : BrokerState) (id : String) : BrokerState :=
  { s with jobs := s.jobs.map fun kr =>
      if kr.1 = id ∧ kr.2.status.isTerminal = false then
        (kr.1, { kr.2 with status := .SUCCESS, result := some (runJob kr.2.call).ret })
      else kr }

/-- Modelled from the spec: an exception in a non-terminal job moves it to
FAILURE with the error captured as the result payload. -/
def BrokerState.failJob (s : BrokerState) (id err : String) : BrokerState :=
  { s with jobs := s.jobs.map fun kr =>
      if kr.1 = id ∧ kr.2.status.isTerminal = false then
        (kr.1, { kr.2 with status := .FAILURE, result := some err })
      else kr }

/-- Modelled from the spec and Celery semantics: AsyncResult lookup.  A
known identifier reports its stored status and result; an unknown
identifier defaults to PENDING with a null result rather than failing. -/
def BrokerState.asyncResult (s : BrokerState) (id : String) : CeleryStatus × Option String :=
  match s.jobs.lookup id with
  | some r => (r.status, r.result)
  | none => (.PENDING, none)

/-! HTTP layer (src/app.py, lines 71-117). -/

/-- JSON values occurring in response bodies of the modelled handlers. -/
inductive JVal where
  | jstr (s : String)
  | jnull
deriving DecidableEq, Repr

/-- An HTTP response: status code and JSON object body as a field list. -/
structure Response where
  code : Nat
  body : List (String × JVal)
deriving DecidableEq, Repr

/-- Response flask-restx produces when a handler raises an unhandled
exception such as KeyError. -/
def internalServerError : Response :=
  { code := 500, body := [("message", JVal.jstr "Internal Server Error")] }

/-- JSON body of a POST send-email request: each declared field either
present with a string value or absent. -/
structure EmailReq where
  toAddr : Option String
  subject : Option String
  message : Option String
deriving DecidableEq, Repr

/-- JSON body of a POST start-task request: the name field and the
optional integer duration field. -/
structure TaskReq where
  name : Option String
  duration : Option Int
deriving DecidableEq, Repr

/-- Embedding of SendEmail.post (src/app.py lines 77-91).  The expect
decorator only documents the model and does not validate, so the handler
reads the three fields directly; a missing field raises KeyError before
delay is reached, which flask-restx surfaces as a 500 response, leaving
the broker untouched.  With all fields present it submits the job and
answers 202 with the message and the identifier of the submission. -/
def SendEmail_post (s : BrokerState) (data : EmailReq) : Response × BrokerState :=
  match data.toAddr, data.subject, data.message with
  | some toAddr, some subject, some message =>
      let r := s.submit (.sendEmail toAddr subject message)
      ({ code := 202,
         body := [("message", JVal.jstr "Email task started"),
                  ("task_id", JVal.jstr r.1)] }, r.2)
  | _, _, _ => (internalServerError, s)

/-- Embedding of StartTask.post (src/app.py lines 93-106).  A missing
name raises KeyError (500); otherwise data.get supplies duration with
default 5, the job is submitted and the handler answers 202 with the
message and the identifier of the submission. -/
def StartTask_post (s : BrokerState) (data : TaskReq) : Response × BrokerState :=
  match data.name with
  | some nm =>
      let r := s.submit (.longRunningTask nm (data.duration.getD 5))
      ({ code := 202,
         body := [("message", JVal.jstr "Task started"),
                  ("task_id", JVal.jstr r.1)] }, r.2)
  | none => (internalServerError, s)

/-- Embedding of TaskStatus.get (src/app.py lines 108-117): AsyncResult
lookup on the path parameter, echoed back with status and result; Flask
defaults the status code to 200. -/
def TaskStatus_get (s : BrokerState) (task_id : String) : Response :=
  { code := 200,
    body := [("task_id", JVal.jstr task_id),
             ("status", JVal.jstr (s.asyncResult task_id).1.text),
             ("result", match (s.asyncResult task_id).2 with
                        | some r => JVal.jstr r
                        | none => JVal.jnull)] }

/-- Embedding of HealthCheck.get (src/app.py lines 71-75): a fixed
payload regardless of the broker state, with the Flask default 200. -/
def HealthCheck_get (_s : BrokerState) : Response :=
  { code := 200,
    body := [("status", JVal.jstr "healthy"),
             ("message", JVal.jstr "API is running!")] }

/-! Request sequences, used to state identifier uniqueness across calls. -/

/-- One incoming API request of the modelled routes. -/
inductive ApiRequest where
  | postSendEmail (data : EmailReq)
  | postStartTask (data : TaskReq)
  | getTaskStatus (task_id : String)
  | getHealth
deriving DecidableEq, Repr

/-- Dispatch of one request to its handler; GET handlers leave the broker
state unchanged. -/
def runRequest (s : BrokerState) : ApiRequest → Response × BrokerState
  | .postSendEmail d => SendEmail_post s d
  | .postStartTask d => StartTask_post s d
  | .getTaskStatus id => (TaskStatus_get s id, s)
  | .getHealth => (HealthCheck_get s, s)

/-- Identifiers handed out to the caller over a request sequence: the
task_id fields of the accepted (202) responses, in order. -/
def returnedIds (s : BrokerState) : List ApiRequest → List String
  | [] => []
  | r :: rs =>
      (if (runRequest s r).1.code = 202 then
         match (runRequest s r).1.body.lookup "task_id" with
         | some (JVal.jstr id) => [id]
         | _ => []
       else []) ++ returnedIds (runRequest s r).2 rs

/-! Reachable broker states: the initial state, plus anything produced by
submissions and worker transitions. -/

/-- One transition of the broker: a submission by a handler, or a worker
starting, completing or failing a job. -/
inductive BrokerStep : BrokerState → BrokerState → Prop where
  | submit (s : BrokerState) (c : JobCall) : BrokerStep s (s.submit c).2
  | start (s : BrokerState) (id : String) : BrokerStep s (s.startJob id)
  | complete (s : BrokerState) (id : String) : BrokerStep s (s.completeJob id)
  | fail (s : BrokerState) (id err : String) : BrokerStep s (s.failJob id err)

/-- Broker states reachable from the initial state. -/
inductive Reachable : BrokerState → Prop where
  | init : Reachable initialBroker
  | step {s s' : BrokerState} : Reachable s → BrokerStep s s' → Reachable s'

/-- Record consistency: no result before a terminal status, and a result
payload once terminal. -/
def JobRecord.consistent (r : JobRecord) : Prop :=
  (r.status.isTerminal = false → r.result = none) ∧
  (r.status.isTerminal = true → r.result.isSome = true)

/-- State consistency: every stored record is consistent. -/
def BrokerState.Consistent (s : BrokerState) : Prop :=
  ∀ kr ∈ s.jobs, JobRecord.consistent kr.2

/-- Demonstration state for the status endpoint: one long-running-task
submission, completed by the worker. -/
def demoBroker : BrokerState :=
  ((initialBroker.submit (.longRunningTask "build" 2)).2).completeJob "task-0"

/-! Decimal decoding, used to show that the identifier generator is
injective. -/

/-- Numeric value of a decimal digit character. -/
def digitVal (c : Char) : Nat := c.toNat - 48

/-- Decoding of a most-significant-first decimal digit string. -/
def decodeDigits (l : List Char) : Nat :=
  l.foldl (fun acc c => 10 * acc + digitVal c) 0

/-! Helper lemmas. -/

/-- Lookup success implies membership of the key-record pair. -/
theorem mem_of_lookup_eq_some {l : List (String × JobRecord)} {k : String} {r : JobRecord}
    (h : l.lookup k = some r) : (k, r) ∈ l := by
  obtain ⟨l₁, l₂, rfl, -⟩ := List.lookup_eq_some_iff.mp h
  simp

/-- Every reachable broker state is consistent: a record carries a result
payload exactly when its status is terminal. -/
theorem consistent_of_reachable {s : BrokerState} (h : Reachable s) : s.Consistent := by
  induction h with
  | init => intro kr hkr; simp [initialBroker] at hkr
  | step _ hstep ih =>
      cases hstep with
      | submit c =>
          intro kr hkr
          rcases List.mem_cons.mp hkr with rfl | hkr
          · exact ⟨fun _ => rfl, fun hterm => by simp [CeleryStatus.isTerminal] at hterm⟩
          · exact ih kr hkr
      | start jid =>
          intro kr hkr
          obtain ⟨kr0, hkr0, rfl⟩ := List.mem_map.mp hkr
          by_cases hc : kr0.1 = jid ∧ kr0.2.status = .PENDING
          · rw [if_pos hc]
            refine ⟨fun _ => ?_, fun hterm => ?_⟩
            · exact (ih kr0 hkr0).1 (by rw [hc.2]; rfl)
            · simp [CeleryStatus.isTerminal] at hterm
          · rw [if_neg hc]; exact ih kr0 hkr0
      | complete jid =>
          intro kr hkr
          obtain ⟨kr0, hkr0, rfl⟩ := List.mem_map.mp hkr
          by_cases hc : kr0.1 = jid ∧ kr0.2.status.isTerminal = false
          · rw [if_pos hc]
            exact ⟨fun hnt => by simp [CeleryStatus.isTerminal] at hnt, fun _ => rfl⟩
          · rw [if_neg hc]; exact ih kr0 hkr0
      | fail jid err =>
          intro kr hkr
          obtain ⟨kr0, hkr0, rfl⟩ := List.mem_map.mp hkr
          by_cases hc : kr0.1 = jid ∧ kr0.2.status.isTerminal = false
          · rw [if_pos hc]
            exact ⟨fun hnt => by simp [CeleryStatus.isTerminal] at hnt, fun _ => rfl⟩
          · rw [if_neg hc]; exact ih kr0 hkr0

/-- Digit strings produced with an accumulator are the digit string over
an empty accumulator followed by the accumulator. -/
theorem toDigitsCore_eq_append (b : Nat) :
    ∀ (f n : Nat) (ds : List Char),
      Nat.toDigitsCore b f n ds = Nat.toDigitsCore b f n [] ++ ds := by
  intro f
  induction f with
  | zero => intro n ds; rfl
  | succ f ih =>
      intro n ds
      simp only [Nat.toDigitsCore]
      by_cases h : n / b = 0
      · simp [h]
      · simp only [if_neg h]
        rw [ih (n / b) (Nat.digitChar (n % b) :: ds), ih (n / b) [Nat.digitChar (n % b)]]
        simp

/-- Decimal digit characters decode to their value. -/
theorem digitVal_digitChar : ∀ d : Nat, d < 10 → digitVal (Nat.digitChar d) = d := by decide

/-- Decoding inverts the decimal digit string of any number below the
fuel bound. -/
theorem decodeDigits_toDigitsCore :
    ∀ (f n : Nat), n < f → decodeDigits (Nat.toDigitsCore 10 f n []) = n := by
  intro f
  induction f with
  | zero => intro n hn; exact absurd hn (Nat.not_lt_zero n)
  | succ f ih =>
      intro n hn
      simp only [Nat.toDigitsCore]
      by_cases h : n / 10 = 0
      · have hlt : n < 10 := by omega
        have hmod : n % 10 = n := Nat.mod_eq_of_lt hlt
        simp [h, decodeDigits, hmod, digitVal_digitChar n hlt]
      · simp only [if_neg h]
        rw [toDigitsCore_eq_append 10 f (n / 10) [Nat.digitChar (n % 10)]]
        have hdlt : n / 10 < f := by omega
        have ihv := ih (n / 10) hdlt
        simp only [decodeDigits] at ihv ⊢
        rw [List.foldl_append, ihv]
        simp only [List.foldl]
        rw [digitVal_digitChar (n % 10) (Nat.mod_lt n (by omega))]
        omega

/-- Decoding inverts the decimal rendering of a natural number. -/
theorem decodeDigits_repr (n : Nat) : decodeDigits (Nat.repr n).data = n :=
  decodeDigits_toDigitsCore (n + 1) n (Nat.lt_succ_self n)

/-- Character data of an appended string. -/
theorem string_data_append (a b : String) : (a ++ b).data = a.data ++ b.data := rfl

/-- Distinct counters give distinct job identifiers. -/
theorem freshId_injective {n m : Nat} (h : freshId n = freshId m) : n = m := by
  have hd := congrArg String.data h
  rw [freshId, freshId, string_data_append, string_data_append] at hd
  have h2 := congrArg decodeDigits (List.append_cancel_left hd)
  rwa [decodeDigits_repr, decodeDigits_repr] at h2

/-- Job identifiers are never the empty string. -/
theorem freshId_ne_empty (n : Nat) : freshId n ≠ "" := by
  intro h
  have hd := congrArg String.data h
  rw [freshId, string_data_append] at hd
  have hl := congrArg List.length hd
  rw [List.length_append] at hl
  have h5 : ("task-" : String).data.length = 5 := rfl
  have h0 : ("" : String).data.length = 0 := rfl
  rw [h5, h0] at hl
  omega

/-- Each request either is an accepted submission, returning the fresh
identifier of the current counter and advancing it, or leaves the
counter unchanged. -/
theorem runRequest_submission (s : BrokerState) (r : ApiRequest) :
    ((runRequest s r).1.code = 202 ∧
     (runRequest s r).1.body.lookup "task_id" = some (JVal.jstr (freshId s.nextId)) ∧
     (runRequest s r).2.nextId = s.nextId + 1) ∨
    ((runRequest s r).1.code ≠ 202 ∧ (runRequest s r).2.nextId = s.nextId) := by
  cases r with
  | postSendEmail d =>
      obtain ⟨t, su, m⟩ := d
      cases t <;> cases su <;> cases m
      case some.some.some => exact Or.inl ⟨rfl, rfl, rfl⟩
      all_goals exact Or.inr ⟨(by decide : (500 : Nat) ≠ 202), rfl⟩
  | postStartTask d =>
      obtain ⟨nm, du⟩ := d
      cases nm
      case some => exact Or.inl ⟨rfl, rfl, rfl⟩
      case none => exact Or.inr ⟨(by decide : (500 : Nat) ≠ 202), rfl⟩
  | getTaskStatus tid => exact Or.inr ⟨(by decide : (200 : Nat) ≠ 202), rfl⟩
  | getHealth => exact Or.inr ⟨(by decide : (200 : Nat) ≠ 202), rfl⟩

/-- Identifiers returned over any request sequence are distinct, non-empty,
and generated at or above the starting counter. -/
theorem returnedIds_fresh :
    ∀ (rs : List ApiRequest) (s : BrokerState),
      (returnedIds s rs).Nodup ∧
      ∀ id ∈ returnedIds s rs, id ≠ "" ∧ ∃ k, s.nextId ≤ k ∧ id = freshId k := by
  intro rs
  induction rs with
  | nil => intro s; simp [returnedIds]
  | cons r rs ih =>
      intro s
      rcases runRequest_submission s r with ⟨h202, hbody, hnext⟩ | ⟨hne, hnext⟩
      · have heq : returnedIds s (r :: rs) =
            freshId s.nextId :: returnedIds (runRequest s r).2 rs := by
          simp only [returnedIds]
          rw [if_pos h202, hbody]
          rfl
        rw [heq]
        obtain ⟨htl_nodup, htl_mem⟩ := ih (runRequest s r).2
        rw [hnext] at htl_mem
        constructor
        · refine List.nodup_cons.mpr ⟨?_, htl_nodup⟩
          intro hmem
          obtain ⟨-, k, hk, hid⟩ := htl_mem _ hmem
          have := freshId_injective hid
          omega
        · intro id hid
          rcases List.mem_cons.mp hid with rfl | hid
          · exact ⟨freshId_ne_empty _, s.nextId, Nat.le_refl _, rfl⟩
          · obtain ⟨hne2, k, hk, hidk⟩ := htl_mem id hid
            exact ⟨hne2, k, by omega, hidk⟩
      · have heq : returnedIds s (r :: rs) = returnedIds (runRequest s r).2 rs := by
          simp only [returnedIds]
          rw [if_neg hne]
          simp
        rw [heq]
        obtain ⟨htl_nodup, htl_mem⟩ := ih (runRequest s r).2
        rw [hnext] at htl_mem
        exact ⟨htl_nodup, htl_mem⟩

/-! Claim theorems. -/

/-- C1 counterexample: with the required field to missing, the handler
answers 500, a server error, not a 4xx client error, refuting the claim
as stated. -/
theorem c1_counterexample :
    (SendEmail_post initialBroker
      { toAddr := none, subject := some "Hello", message := some "Body" }).1.code = 500 ∧
    ¬ (400 ≤ (SendEmail_post initialBroker
         { toAddr := none, subject := some "Hello", message := some "Body" }).1.code ∧
       (SendEmail_post initialBroker
         { toAddr := none, subject := some "Hello", message := some "Body" }).1.code < 500) :=
  ⟨rfl, by decide⟩

/-- C1 (amended): for every POST send-email request with at least one of
the required fields to, subject, message missing, no job is submitted
(the broker state is untouched) and the handler yields the 500
internal-server-error response produced from the KeyError, not a 4xx. -/
theorem c1_missing_field_500 (s : BrokerState) (d : EmailReq)
    (h : d.toAddr = none ∨ d.subject = none ∨ d.message = none) :
    SendEmail_post s d = (internalServerError, s) ∧
    (SendEmail_post s d).1.code = 500 := by
  obtain ⟨t, su, m⟩ := d
  have : SendEmail_post s ⟨t, su, m⟩ = (internalServerError, s) := by
    cases t <;> cases su <;> cases m <;> simp_all [SendEmail_post]
  exact ⟨this, by rw [this]; rfl⟩

/-- C1 witness: the amended statement at a concrete request with the
field to missing. -/
theorem c1_missing_field_500_witness :
    (SendEmail_post initialBroker
       { toAddr := none, subject := some "Hello", message := some "Body" } =
         (internalServerError, initialBroker)) ∧
    (SendEmail_post initialBroker
       { toAddr := none, subject := some "Hello", message := some "Body" }).1.code = 500 :=
  c1_missing_field_500 initialBroker _ (Or.inl rfl)

/-- C2: for every name and non-negative duration, the long-running-task
executor emits exactly duration progress observations, sleeps duration
simulated seconds, and returns the confirmation string containing name
and duration; concretely, name build with duration 2 yields the string
Task build completed in 2 seconds. -/
theorem c2_long_running_task_executor :
    (∀ (task_name : String) (d : Nat),
        (long_running_progress task_name (d : Int)).length = d ∧
        (long_running_task_async task_name (d : Int)).sleepTime = d ∧
        (long_running_task_async task_name (d : Int)).printed =
          ["🚀 Starting task: " ++ task_name,
           "⏰ Duration: " ++ toString (d : Int) ++ " seconds"]
          ++ long_running_progress task_name (d : Int)
          ++ ["✅ Task " ++ task_name ++ " completed!"] ∧
        (long_running_task_async task_name (d : Int)).ret =
          "Task " ++ task_name ++ " completed in " ++ toString (d : Int) ++ " seconds") ∧
    (long_running_task_async "build" 2).ret = "Task build completed in 2 seconds" := by
  refine ⟨fun task_name d => ⟨?_, ?_, rfl, rfl⟩, rfl⟩
  · simp [long_running_progress]
  · simp [long_running_task_async]

/-- C3: for all recipient, subject and message strings, the send-email
executor has no failure branch, takes a fixed simulated delay of 3
seconds, and returns the confirmation string Email sent to the recipient
successfully, which contains the recipient. -/
theorem c3_send_email_executor (toAddr subject message : String) :
    (send_email_async toAddr subject message).sleepTime = 3 ∧
    (send_email_async toAddr subject message).ret = "Email sent to " ++ toAddr ++ " successfully!" ∧
    ∃ pre post, (send_email_async toAddr subject message).ret = pre ++ toAddr ++ post :=
  ⟨rfl, rfl, "Email sent to ", " successfully!", rfl⟩

/-- C4: every valid POST send-email and POST start-task request submits
the job, answers 202 with exactly the fields message and task_id, where
task_id is the identifier the submission returned, and at response time
the submitted record is still PENDING with no result, so the handler did
not wait for execution. -/
theorem c4_submit_then_202 (s : BrokerState)
    (toAddr subject message nm : String) (dOpt : Option Int) :
    ((SendEmail_post s { toAddr := some toAddr, subject := some subject, message := some message }).1.code = 202 ∧
     (SendEmail_post s { toAddr := some toAddr, subject := some subject, message := some message }).1.body =
       [("message", JVal.jstr "Email task started"),
        ("task_id", JVal.jstr (s.submit (.sendEmail toAddr subject message)).1)] ∧
     (SendEmail_post s { toAddr := some toAddr, subject := some subject, message := some message }).2 =
       (s.submit (.sendEmail toAddr subject message)).2 ∧
     (SendEmail_post s { toAddr := some toAddr, subject := some subject, message := some message }).2.jobs.lookup
         (s.submit (.sendEmail toAddr subject message)).1 =
       some { call := .sendEmail toAddr subject message, status := .PENDING, result := none }) ∧
    ((StartTask_post s { name := some nm, duration := dOpt }).1.code = 202 ∧
     (StartTask_post s { name := some nm, duration := dOpt }).1.body =
       [("message", JVal.jstr "Task started"),
        ("task_id", JVal.jstr (s.submit (.longRunningTask nm (dOpt.getD 5))).1)] ∧
     (StartTask_post s { name := some nm, duration := dOpt }).2 =
       (s.submit (.longRunningTask nm (dOpt.getD 5))).2 ∧
     (StartTask_post s { name := some nm, duration := dOpt }).2.jobs.lookup
         (s.submit (.longRunningTask nm (dOpt.getD 5))).1 =
       some { call := .longRunningTask nm (dOpt.getD 5), status := .PENDING, result := none }) := by
  refine ⟨⟨rfl, rfl, rfl, ?_⟩, ⟨rfl, rfl, rfl, ?_⟩⟩ <;>
    simp [SendEmail_post, StartTask_post, BrokerState.submit]

/-- C5: a POST start-task request with name present and duration absent
submits a long_running_task job with duration 5, whose terminal result
string reports completion in 5 seconds. -/
theorem c5_default_duration (s : BrokerState) (nm : String) :
    (StartTask_post s { name := some nm, duration := none }).2.jobs.lookup (freshId s.nextId) =
      some { call := .longRunningTask nm 5, status := .PENDING, result := none } ∧
    (runJob (.longRunningTask nm 5)).ret = "Task " ++ nm ++ " completed in 5 seconds" := by
  constructor
  · simp [StartTask_post, BrokerState.submit, List.lookup]
  · show "Task " ++ nm ++ " completed in " ++ toString (5 : Int) ++ " seconds" = _
    rw [String.append_assoc, String.append_assoc]; rfl

/-- C6: for every reachable broker state and every task_id path
parameter, the status handler answers 200 with exactly the fields
task_id, status and result, echoing the path parameter, reporting the
current status, and carrying the stored result exactly when the status
is terminal and null otherwise. -/
theorem c6_task_status_contract (s : BrokerState) (hs : Reachable s) (task_id : String) :
    (TaskStatus_get s task_id).code = 200 ∧
    (TaskStatus_get s task_id).body =
      [("task_id", JVal.jstr task_id),
       ("status", JVal.jstr (s.asyncResult task_id).1.text),
       ("result", match (s.asyncResult task_id).2 with
                  | some r => JVal.jstr r
                  | none => JVal.jnull)] ∧
    ((s.asyncResult task_id).1.isTerminal = false →
        (s.asyncResult task_id).2 = none ∧
        (TaskStatus_get s task_id).body.lookup "result" = some JVal.jnull) ∧
    ((s.asyncResult task_id).1.isTerminal = true →
        ∃ r, (s.asyncResult task_id).2 = some r ∧
          (TaskStatus_get s task_id).body.lookup "result" = some (JVal.jstr r)) := by
  have hcons := consistent_of_reachable hs
  refine ⟨rfl, rfl, ?_, ?_⟩
  · intro hnt
    have hres : (s.asyncResult task_id).2 = none := by
      simp only [BrokerState.asyncResult] at hnt ⊢
      cases hj : s.jobs.lookup task_id with
      | none => simp [hj]
      | some r =>
          rw [hj] at hnt
          simp only at hnt
          simp only [hj]
          exact (hcons (task_id, r) (mem_of_lookup_eq_some hj)).1 hnt
    exact ⟨hres, by simp [TaskStatus_get, hres, List.lookup]⟩
  · intro ht
    simp only [BrokerState.asyncResult] at ht ⊢
    cases hj : s.jobs.lookup task_id with
    | none => rw [hj] at ht; simp [CeleryStatus.isTerminal] at ht
    | some r =>
        rw [hj] at ht
        simp only at ht
        have hsome : r.result.isSome = true :=
          (hcons (task_id, r) (mem_of_lookup_eq_some hj)).2 ht
        obtain ⟨v, hv⟩ : ∃ v, r.result = some v := Option.isSome_iff_exists.mp hsome
        refine ⟨v, by simp [hj, hv], ?_⟩
        simp [TaskStatus_get, BrokerState.asyncResult, hj, hv, List.lookup]

/-- C6 witness: the contract instantiated at a reachable state holding
one completed long-running-task job. -/
theorem c6_task_status_contract_witness :
    (TaskStatus_get demoBroker "task-0").code = 200 ∧
    (TaskStatus_get demoBroker "task-0").body =
      [("task_id", JVal.jstr "task-0"),
       ("status", JVal.jstr (demoBroker.asyncResult "task-0").1.text),
       ("result", match (demoBroker.asyncResult "task-0").2 with
                  | some r => JVal.jstr r
                  | none => JVal.jnull)] ∧
    ((demoBroker.asyncResult "task-0").1.isTerminal = false →
        (demoBroker.asyncResult "task-0").2 = none ∧
        (TaskStatus_get demoBroker "task-0").body.lookup "result" = some JVal.jnull) ∧
    ((demoBroker.asyncResult "task-0").1.isTerminal = true →
        ∃ r, (demoBroker.asyncResult "task-0").2 = some r ∧
          (TaskStatus_get demoBroker "task-0").body.lookup "result" = some (JVal.jstr r)) :=
  c6_task_status_contract demoBroker
    (Reachable.step
      (Reachable.step Reachable.init
        (BrokerStep.submit initialBroker (JobCall.longRunningTask "build" 2)))
      (BrokerStep.complete (initialBroker.submit (JobCall.longRunningTask "build" 2)).2 "task-0"))
    "task-0"

/-- C7: the health endpoint always answers 200 with the same fixed
payload whose status field is healthy, for every broker state and hence
independently of prior requests. -/
theorem c7_health_check (s t : BrokerState) :
    HealthCheck_get s =
      { code := 200,
        body := [("status", JVal.jstr "healthy"), ("message", JVal.jstr "API is running!")] } ∧
    HealthCheck_get s = HealthCheck_get t ∧
    (HealthCheck_get s).body.lookup "status" = some (JVal.jstr "healthy") :=
  ⟨rfl, rfl, rfl⟩

/-- C8: over every sequence of requests starting from the initial broker
state, the identifiers handed out by accepted submissions are pairwise
distinct and none of them is empty. -/
theorem c8_unique_nonempty_ids (rs : List ApiRequest) :
    (returnedIds initialBroker rs).Nodup ∧
    ∀ id ∈ returnedIds initialBroker rs, id ≠ "" := by
  obtain ⟨h1, h2⟩ := returnedIds_fresh rs initialBroker
  exact ⟨h1, fun id hid => (h2 id hid).1⟩

/-- C8 witness: a concrete two-submission sequence, with the membership
hypothesis discharged by evaluation. -/
theorem c8_unique_nonempty_ids_witness :
    "task-0" ∈ returnedIds initialBroker
        [ApiRequest.postStartTask { name := some "build", duration := some 2 },
         ApiRequest.postSendEmail
           { toAddr := some "a@b.c", subject := some "hi", message := some "m" }] ∧
    "task-0" ≠ "" :=
  ⟨by decide,
   (c8_unique_nonempty_ids
      [ApiRequest.postStartTask { name := some "build", duration := some 2 },
       ApiRequest.postSendEmail
         { toAddr := some "a@b.c", subject := some "hi", message := some "m" }]).2
     "task-0" (by decide)⟩

/-- C9: querying the status of any identifier the broker does not know,
including identifiers never issued, does not raise: the handler answers
200, echoes the identifier, reports the default status PENDING and a
null result. -/
theorem c9_unknown_task_id (s : BrokerState) (task_id : String)
    (h : s.jobs.lookup task_id = none) :
    TaskStatus_get s task_id =
      { code := 200,
        body := [("task_id", JVal.jstr task_id),
                 ("status", JVal.jstr "PENDING"),
                 ("result", JVal.jnull)] } := by
  simp [TaskStatus_get, BrokerState.asyncResult, h, CeleryStatus.text]

/-- C9 witness: an identifier that was never issued, against the empty
initial broker state. -/
theorem c9_unknown_task_id_witness :
    TaskStatus_get initialBroker "never-issued" =
      { code := 200,
        body := [("task_id", JVal.jstr "never-issued"),
                 ("status", JVal.jstr "PENDING"),
                 ("result", JVal.jnull)] } :=
  c9_unknown_task_id initialBroker "never-issued" rfl

/-- C10: the long-running-task executor terminates for every integer
duration; when the duration is non-positive the progress loop runs zero
iterations, no time is slept, and the confirmation string still embeds
the given non-positive duration. -/
theorem c10_nonpositive_duration (task_name : String) (d : Int) (h : d ≤ 0) :
    long_running_progress task_name d = [] ∧
    (long_running_task_async task_name d).sleepTime = 0 ∧
    (long_running_task_async task_name d).ret =
      "Task " ++ task_name ++ " completed in " ++ toString d ++ " seconds" := by
  have h0 : d.toNat = 0 := Int.toNat_of_nonpos h
  exact ⟨by simp [long_running_progress, h0], by simp [long_running_task_async, h0], rfl⟩

/-- C10 witness: duration minus one, with the duration rendered inside
the returned string. -/
theorem c10_nonpositive_duration_witness :
    (-1 : Int) ≤ 0 ∧
    (long_running_progress "x" (-1) = [] ∧
     (long_running_task_async "x" (-1)).sleepTime = 0 ∧
     (long_running_task_async "x" (-1)).ret = "Task x completed in -1 seconds") :=
  ⟨by decide, c10_nonpositive_duration "x" (-1) (by decide)⟩

end SimpleFlask
